import Mathlib

/-!
Shallow embedding of the warehouse submaterials backend (src/main.py) and
verification of the specification's claims about it.

Stock quantities (Python decimal.Decimal) are embedded as exact rationals ℚ
for the ledger and alerting model, since Python Decimal addition, negation
and comparison are exact value operations here; the decimal-representation
level (exponent preservation, string round trip) is embedded separately as
DecNum for the numerical claims.
-/

namespace Warehouse

/-- Embeds class Material (main.py lines 17-26).  Python field defaults:
current_m = 0, min_threshold_m = 0, reorder_qty_m = 0, unit = "m",
is_active = True, version = 1.  min_threshold_m is typed Decimal in the
source, but evaluate_threshold defensively checks it against None, so it is
embedded as an Option. -/
structure Material where
  id : Nat
  code : String
  name : String
  current_m : ℚ
  min_threshold_m : Option ℚ
  reorder_qty_m : ℚ
  unit : String
  is_active : Bool
  version : Nat
deriving DecidableEq, Repr

/-- Embeds class MaterialLog (main.py lines 28-33); created_at is a server
timestamp irrelevant to the claims and omitted. -/
structure MaterialLog where
  material_id : Nat
  change_m : ℚ
  reason : Option String
deriving DecidableEq, Repr

/-- Embeds class Alert (main.py lines 35-41); created_at omitted as above. -/
structure Alert where
  material_id : Nat
  level : String
  message : String
  is_read : Bool
deriving DecidableEq, Repr

/-- Embeds class MaterialCreate (main.py lines 47-53): the creation payload,
with pydantic validation current_m ≥ 0, min_threshold_m ≥ 0, reorder_qty_m ≥ 0. -/
structure MaterialCreate where
  code : String
  name : String
  current_m : ℚ
  min_threshold_m : ℚ
  reorder_qty_m : ℚ
deriving DecidableEq, Repr

/-- The pydantic defaults of MaterialCreate: all three decimal fields default
to Decimal 0 (main.py lines 50-52). -/
def MaterialCreate.withDefaults (code name : String) : MaterialCreate :=
  { code := code, name := name, current_m := 0, min_threshold_m := 0, reorder_qty_m := 0 }

/-- Embeds class MaterialUpdate (main.py lines 54-58): every field optional,
none means not supplied. -/
structure MaterialUpdate where
  name : Option String
  min_threshold_m : Option ℚ
  reorder_qty_m : Option ℚ
  is_active : Option Bool
deriving DecidableEq, Repr

/-- Embeds class Movement (main.py lines 60-63): amount_m with pydantic
validation gt 0 (checked in the handlers below, mirroring pydantic rejecting
the request before the route body runs), optional reason, optional
expected_version. -/
structure Movement where
  amount_m : ℚ
  reason : Option String
  expected_version : Option Nat
deriving DecidableEq, Repr

/-- The errors the handlers surface (HTTPException status codes in main.py):
404 not found, 409 duplicate code, 409 version mismatch (carrying the stored
version, line 215), 400 negative stock (line 197), 422 pydantic invalid
amount. -/
inductive ApiError where
  | notFound : ApiError
  | conflict : ApiError
  | versionConflict : Nat → ApiError
  | insufficientStock : ApiError
  | invalidArgument : ApiError
deriving DecidableEq, Repr

/-- A connected websocket listener of the AlertHub (main.py lines 71-94):
its token and whether ws.send_json succeeds for it. -/
structure Listener where
  token : Nat
  sendOk : Bool
deriving DecidableEq, Repr

/-- The persistent store: materials table, movement log table, alerts table,
plus the autoincrement id counter. -/
structure DB where
  materials : List Material
  logs : List MaterialLog
  alerts : List Alert
  next_id : Nat
deriving DecidableEq, Repr

/-- Full server state: the database plus the AlertHub's active listener set. -/
structure ServerState where
  db : DB
  hub : List Listener
deriving DecidableEq, Repr

/-- session.get(Material, material_id): look the material up by primary key. -/
def findMaterial (db : DB) (material_id : Nat) : Option Material :=
  db.materials.find? (fun m => m.id == material_id)

/-- session.add of a changed row: replace the stored row with the same id. -/
def setMaterial : List Material → Material → List Material
  | [], _ => []
  | m :: rest, m' => if m.id == m'.id then m' :: rest else m :: setMaterial rest m'

/-- Embeds evaluate_threshold (main.py lines 105-114): None when the
threshold is unset; when current_m ≤ min_threshold_m, CRITICAL if
current_m ≤ 0 else LOW; otherwise None. -/
def evaluate_threshold (material : Material) : Option String :=
  match material.min_threshold_m with
  | none => none
  | some threshold =>
    if material.current_m ≤ threshold then
      if material.current_m ≤ 0 then some "CRITICAL" else some "LOW"
    else none

/-- One pass of AlertHub.broadcast's send loop (main.py lines 84-92): try
ws.send_json for every registered listener in turn, collecting the tokens
delivered and the tokens whose send raised (to_drop).  A failure is recorded
and the loop continues with the remaining listeners. -/
def broadcastGo : List Listener → List Nat × List Nat
  | [] => ([], [])
  | l :: rest =>
    let r := broadcastGo rest
    if l.sendOk then (l.token :: r.1, r.2) else (r.1, l.token :: r.2)

/-- AlertHub.disconnect(token) (main.py lines 81-82): self.active.pop(token). -/
def disconnectTok (active : List Listener) (t : Nat) : List Listener :=
  active.filter (fun l => l.token ≠ t)

/-- Embeds AlertHub.broadcast (main.py lines 84-92): send to every listener,
then disconnect each listener whose send failed.  Returns the new active set
and the tokens that received the payload. -/
def broadcast (active : List Listener) : List Listener × List Nat :=
  let r := broadcastGo active
  (r.2.foldl disconnectTok active, r.1)

/-- The alert message template of push_alert (main.py line 97), rendered from
the material snapshot. -/
def renderMsg (material : Material) : String :=
  "[" ++ material.code ++ "] " ++ material.name ++ " stock " ++
    toString material.current_m ++ material.unit ++ " (threshold " ++
    toString material.min_threshold_m ++ material.unit ++ ")"

/-- The Alert row push_alert persists (main.py line 98): is_read defaults to
False. -/
def mkAlert (material : Material) (level : String) : Alert :=
  { material_id := material.id, level := level, message := renderMsg material, is_read := false }

/-- Embeds push_alert (main.py lines 96-102): persist the Alert row, commit,
then broadcast the payload to the hub's active listeners. -/
def push_alert (s : ServerState) (material : Material) (level : String) : ServerState :=
  { db := { s.db with alerts := s.db.alerts ++ [mkAlert material level] },
    hub := (broadcast s.hub).1 }

/-- Embeds create_material (main.py lines 137-151): 409 when the code already
exists, otherwise insert a row with the payload's decimal fields and the
Material defaults (unit "m", is_active True, version 1), the id assigned by
the database. -/
def create_material (db : DB) (payload : MaterialCreate) : Except ApiError (DB × Material) :=
  if db.materials.any (fun m => m.code == payload.code) then
    .error .conflict
  else
    let m : Material :=
      { id := db.next_id, code := payload.code, name := payload.name,
        current_m := payload.current_m, min_threshold_m := some payload.min_threshold_m,
        reorder_qty_m := payload.reorder_qty_m, unit := "m", is_active := true, version := 1 }
    .ok ({ db with materials := db.materials ++ [m], next_id := db.next_id + 1 }, m)

/-- Embeds update_material (main.py lines 170-190): 404 when absent,
otherwise overwrite each supplied field and unconditionally increment
version. -/
def update_material (db : DB) (material_id : Nat) (payload : MaterialUpdate) :
    Except ApiError (DB × Material) :=
  match findMaterial db material_id with
  | none => .error .notFound
  | some m =>
    let m1 := match payload.name with | some v => { m with name := v } | none => m
    let m2 := match payload.min_threshold_m with
      | some v => { m1 with min_threshold_m := some v } | none => m1
    let m3 := match payload.reorder_qty_m with
      | some v => { m2 with reorder_qty_m := v } | none => m2
    let m4 := match payload.is_active with | some v => { m3 with is_active := v } | none => m3
    let m5 := { m4 with version := m4.version + 1 }
    .ok ({ db with materials := setMaterial db.materials m5 }, m5)

/-- Embeds apply_movement (main.py lines 193-206): reject with 400 when
current_m + delta < 0, otherwise set the new stock, increment version, and
commit the changed row together with one MaterialLog row carrying the signed
delta and the reason. -/
def apply_movement (db : DB) (material : Material) (delta : ℚ) (reason : Option String) :
    Except ApiError (DB × Material × MaterialLog) :=
  let new_val := material.current_m + delta
  if new_val < 0 then .error .insufficientStock
  else
    let material' := { material with current_m := new_val, version := material.version + 1 }
    let log : MaterialLog := { material_id := material.id, change_m := delta, reason := reason }
    .ok ({ db with materials := setMaterial db.materials material', logs := db.logs ++ [log] },
         material', log)

/-- The optimistic-lock guard shared by consume and replenish (main.py lines
214 and 228): Python truthiness makes expected_version None or 0 skip the
check; otherwise the check fails exactly when it differs from the stored
version. -/
def versionCheckFails (expected_version : Option Nat) (version : Nat) : Bool :=
  match expected_version with
  | none => false
  | some e => e != 0 && e != version

/-- Embeds the consume route (main.py lines 208-221): pydantic rejects a
non-positive amount_m before the body runs; then 404 lookup, optimistic-lock
check, apply_movement with delta = -amount_m, and afterwards threshold
evaluation with push_alert when a level is returned. -/
def consume (s : ServerState) (material_id : Nat) (payload : Movement) :
    Except ApiError (ServerState × Material) :=
  if payload.amount_m ≤ 0 then .error .invalidArgument
  else match findMaterial s.db material_id with
  | none => .error .notFound
  | some m =>
    if versionCheckFails payload.expected_version m.version then
      .error (.versionConflict m.version)
    else match apply_movement s.db m (-payload.amount_m) payload.reason with
      | .error e => .error e
      | .ok (db1, material, _) =>
        match evaluate_threshold material with
        | some level => .ok (push_alert { db := db1, hub := s.hub } material level, material)
        | none => .ok ({ db := db1, hub := s.hub }, material)

/-- Embeds the replenish route (main.py lines 223-232): identical to consume
up to the sign of the delta, but with no threshold evaluation and no alert
after the movement. -/
def replenish (s : ServerState) (material_id : Nat) (payload : Movement) :
    Except ApiError (ServerState × Material) :=
  if payload.amount_m ≤ 0 then .error .invalidArgument
  else match findMaterial s.db material_id with
  | none => .error .notFound
  | some m =>
    if versionCheckFails payload.expected_version m.version then
      .error (.versionConflict m.version)
    else match apply_movement s.db m payload.amount_m payload.reason with
      | .error e => .error e
      | .ok (db1, material, _) => .ok ({ db := db1, hub := s.hub }, material)

/-- The loop body of check_all_thresholds_and_alert: evaluate each listed
material and push an alert when a level is returned. -/
def sweepGo : List Material → ServerState → ServerState
  | [], s => s
  | m :: rest, s =>
    match evaluate_threshold m with
    | some level => sweepGo rest (push_alert s m level)
    | none => sweepGo rest s

/-- Embeds check_all_thresholds_and_alert (main.py lines 116-121), the body
of the periodic sweep run_threshold_job (lines 131-134): list the active
materials, evaluate each, and push an alert for each alert-worthy one. -/
def check_all_thresholds_and_alert (s : ServerState) : ServerState :=
  sweepGo (s.db.materials.filter (fun m => m.is_active)) s

/-- A movement request against one material: which route it hits and its
payload. -/
inductive MovOp where
  | consumeOp : Movement → MovOp
  | replenishOp : Movement → MovOp
deriving DecidableEq, Repr

/-- The signed delta a movement applies: -amount_m for consume (main.py line
216), +amount_m for replenish (line 230). -/
def MovOp.delta : MovOp → ℚ
  | .consumeOp p => -p.amount_m
  | .replenishOp p => p.amount_m

/-- Dispatch a movement request to its route. -/
def applyOp (s : ServerState) (material_id : Nat) : MovOp → Except ApiError (ServerState × Material)
  | .consumeOp p => consume s material_id p
  | .replenishOp p => replenish s material_id p

/-- The server state after a movement request: the new state on success, the
old state untouched on failure (the handlers raise before any row is
changed, so a failed request commits nothing). -/
def stepOp (s : ServerState) (material_id : Nat) (op : MovOp) : ServerState :=
  match applyOp s material_id op with
  | .ok (s', _) => s'
  | .error _ => s

/-- Run a sequence of movement requests against one material. -/
def runOps (s : ServerState) (material_id : Nat) : List MovOp → ServerState
  | [] => s
  | op :: rest => runOps (stepOp s material_id op) material_id rest

/-- The signed deltas of exactly the accepted movements of a request
sequence, in order. -/
def appliedDeltas (s : ServerState) (material_id : Nat) : List MovOp → List ℚ
  | [] => []
  | op :: rest =>
    match applyOp s material_id op with
    | .ok (s', _) => op.delta :: appliedDeltas s' material_id rest
    | .error _ => appliedDeltas s material_id rest

/-- Representation-level embedding of Python decimal.Decimal as used by the
stock fields: an integer coefficient and a decimal scale (the negated
exponent), value num / 10 ^ scale.  Python Decimal keeps the exponent, so
trailing zeros survive arithmetic and printing. -/
structure DecNum where
  num : Int
  scale : Nat
deriving DecidableEq, Repr

/-- The exact rational value of a decimal. -/
def DecNum.val (d : DecNum) : ℚ := (d.num : ℚ) / (10 : ℚ) ^ d.scale

/-- Decimal addition: align both operands to the finer scale (Python Decimal
addition uses the smaller exponent) and add coefficients; exact, no binary
rounding. -/
def DecNum.add (a b : DecNum) : DecNum :=
  let e := max a.scale b.scale
  { num := a.num * 10 ^ (e - a.scale) + b.num * 10 ^ (e - b.scale), scale := e }

/-- Decimal negation keeps the exponent. -/
def DecNum.neg (a : DecNum) : DecNum :=
  { num := -a.num, scale := a.scale }

/-- Left-pad a digit string with zeros up to the scale, for the fractional
part of str(Decimal). -/
def padZeros (s : String) (n : Nat) : String :=
  String.mk (List.replicate (n - s.length) '0') ++ s

/-- str(Decimal): sign, integer part, and, when the scale is positive,
a dot followed by exactly scale fractional digits (trailing zeros kept). -/
def DecNum.render (d : DecNum) : String :=
  let sign := if d.num < 0 then "-" else ""
  if d.scale = 0 then sign ++ toString d.num.natAbs
  else
    let n := d.num.natAbs
    let base := 10 ^ d.scale
    sign ++ toString (n / base) ++ "." ++ padZeros (toString (n % base)) d.scale

/-- Read an unsigned digit string. -/
def parseDigits (cs : List Char) : Option Nat :=
  cs.foldl
    (fun acc c =>
      match acc with
      | none => none
      | some a => if c.isDigit then some (10 * a + (c.toNat - 48)) else none)
    (some 0)

/-- Decimal("<digits>" or "<digits>.<digits>") on a non-negative literal:
the scale is the number of fractional digits, so Decimal("12.500") is
coefficient 12500 at scale 3. -/
def DecNum.ofChars (cs : List Char) : Option DecNum :=
  let ip := cs.takeWhile (fun c => c ≠ '.')
  match cs.dropWhile (fun c => c ≠ '.') with
  | [] => (parseDigits ip).map (fun n => { num := (n : Int), scale := 0 })
  | _ :: fp =>
    if fp.contains '.' then none
    else
      match parseDigits ip, parseDigits fp with
      | some i, some f =>
        some { num := (i : Int) * 10 ^ fp.length + (f : Int), scale := fp.length }
      | _, _ => none

/-- Decimal built from the transmitted string form. -/
def DecNum.ofString (s : String) : Option DecNum :=
  DecNum.ofChars s.data

/-- apply_movement's stock update at the Decimal representation level for a
consumption (main.py lines 195-198): new_val = current + (-amount), rejected
when its value is negative. -/
def consumeDec (cur amt : DecNum) : Option DecNum :=
  let new_val := cur.add amt.neg
  if new_val.num < 0 then none else some new_val

/-- n consecutive consumptions of the same amount, stopping at the first
rejection. -/
def iterateConsume : Nat → DecNum → DecNum → Option DecNum
  | 0, cur, _ => some cur
  | n + 1, cur, amt =>
    match consumeDec cur amt with
    | none => none
    | some c => iterateConsume n c amt

/-! ### Basic lemmas about the store -/

lemma findMaterial_mem {db : DB} {mid : Nat} {m : Material}
    (h : findMaterial db mid = some m) : m ∈ db.materials :=
  List.mem_of_find?_eq_some h

lemma findMaterial_id {db : DB} {mid : Nat} {m : Material}
    (h : findMaterial db mid = some m) : m.id = mid := by
  have := List.find?_some h
  simpa using this

lemma mem_setMaterial {l : List Material} {m' a : Material} :
    a ∈ setMaterial l m' → a = m' ∨ a ∈ l := by
  induction l with
  | nil => intro h; simp [setMaterial] at h
  | cons x rest ih =>
    intro h
    by_cases hx : (x.id == m'.id) = true
    · simp only [setMaterial, hx, if_true] at h
      rcases List.mem_cons.mp h with h | h
      · exact Or.inl h
      · exact Or.inr (List.mem_cons_of_mem _ h)
    · simp only [setMaterial, hx, Bool.false_eq_true, if_false] at h
      rcases List.mem_cons.mp h with h | h
      · exact Or.inr (h ▸ List.mem_cons_self x rest)
      · rcases ih h with h' | h'
        · exact Or.inl h'
        · exact Or.inr (List.mem_cons_of_mem _ h')

lemma find?_setMaterial {l : List Material} {mid : Nat} {m m' : Material}
    (hid : m'.id = m.id) :
    l.find? (fun x => x.id == mid) = some m →
    (setMaterial l m').find? (fun x => x.id == mid) = some m' := by
  induction l with
  | nil => intro h; simp [List.find?] at h
  | cons x rest ih =>
    intro h
    have hmid : m.id = mid := by simpa using List.find?_some h
    by_cases hx : (x.id == mid) = true
    · simp only [List.find?, hx] at h
      have hxm : x = m := by simpa using h
      have hx' : (x.id == m'.id) = true := by simp [hid, hxm, hmid]
      simp only [setMaterial, hx', if_true]
      simp [List.find?, hid, hmid]
    · simp only [List.find?, hx, Bool.false_eq_true] at h
      have hx2 : ¬ x.id = mid := by simpa using hx
      have hx' : (x.id == m'.id) = false := by
        simp only [hid, hmid]
        simpa using hx2
      simp only [setMaterial, hx', Bool.false_eq_true, if_false]
      simp only [List.find?, hx, Bool.false_eq_true]
      exact ih h

/-! ### The threshold evaluator (claim C4) -/

/-- A material snapshot with the given stock and threshold, for the concrete
evaluator test vectors. -/
def sampleMat (c : ℚ) (t : Option ℚ) : Material :=
  { id := 1, code := "FAB-001", name := "Canvas", current_m := c, min_threshold_m := t,
    reorder_qty_m := 0, unit := "m", is_active := true, version := 1 }

/-- C4: evaluate_threshold is a pure function of the snapshot: None when the
threshold is unset; CRITICAL when current_m ≤ 0 (precedence, under the
system-wide invariant that thresholds are non-negative); LOW when
0 < current_m ≤ threshold; None when threshold < current_m; and on the
spec's test vectors with threshold 5 it gives CRITICAL at 0, LOW at 3, None
at 10. -/
theorem C4_evaluate_threshold_spec (m : Material) :
    (m.min_threshold_m = none → evaluate_threshold m = none) ∧
    (∀ t : ℚ, m.min_threshold_m = some t → 0 ≤ t →
      (m.current_m ≤ 0 → evaluate_threshold m = some "CRITICAL") ∧
      (0 < m.current_m → m.current_m ≤ t → evaluate_threshold m = some "LOW") ∧
      (t < m.current_m → evaluate_threshold m = none)) ∧
    evaluate_threshold (sampleMat 0 (some 5)) = some "CRITICAL" ∧
    evaluate_threshold (sampleMat 3 (some 5)) = some "LOW" ∧
    evaluate_threshold (sampleMat 10 (some 5)) = none ∧
    (∀ c : ℚ, evaluate_threshold (sampleMat c none) = none) := by
  refine ⟨?_, ?_, ?_, ?_, ?_, ?_⟩
  · intro h
    simp [evaluate_threshold, h]
  · intro t ht htn
    refine ⟨?_, ?_, ?_⟩
    · intro hc
      simp only [evaluate_threshold, ht]
      rw [if_pos (le_trans hc htn), if_pos hc]
    · intro hc hct
      simp only [evaluate_threshold, ht]
      rw [if_pos hct, if_neg (not_le.mpr hc)]
    · intro hc
      simp only [evaluate_threshold, ht]
      rw [if_neg (not_le.mpr hc)]
  · norm_num [evaluate_threshold, sampleMat]
  · norm_num [evaluate_threshold, sampleMat]
  · norm_num [evaluate_threshold, sampleMat]
  · intro c
    simp [evaluate_threshold, sampleMat]

/-- Witness for C4 at the concrete vector current_m = 0, threshold 5. -/
theorem C4_witness :
    (sampleMat 0 (some 5)).min_threshold_m = some 5 ∧ (0:ℚ) ≤ 5 ∧
    evaluate_threshold (sampleMat 0 (some 5)) = some "CRITICAL" :=
  ⟨rfl, by norm_num,
    ((C4_evaluate_threshold_spec (sampleMat 0 (some 5))).2.1 5 rfl (by norm_num)).1
      (by norm_num [sampleMat])⟩

/-! ### Anatomy of a successful or failed movement -/

lemma consume_ok {s : ServerState} {mid : Nat} {p : Movement} {s' : ServerState} {mat : Material}
    (h : consume s mid p = .ok (s', mat)) :
    ∃ m, findMaterial s.db mid = some m ∧
      0 < p.amount_m ∧
      versionCheckFails p.expected_version m.version = false ∧
      0 ≤ m.current_m + -p.amount_m ∧
      mat = { m with current_m := m.current_m + -p.amount_m, version := m.version + 1 } ∧
      s'.db.materials = setMaterial s.db.materials mat ∧
      s'.db.logs = s.db.logs ++ [{ material_id := m.id, change_m := -p.amount_m, reason := p.reason }] ∧
      s'.db.next_id = s.db.next_id ∧
      ((∃ level, evaluate_threshold mat = some level ∧
          s'.db.alerts = s.db.alerts ++ [mkAlert mat level] ∧ s'.hub = (broadcast s.hub).1) ∨
        (evaluate_threshold mat = none ∧ s'.db.alerts = s.db.alerts ∧ s'.hub = s.hub)) := by
  unfold consume at h
  split at h
  · simp at h
  · rename_i hle
    split at h
    · simp at h
    · rename_i m heq
      split at h
      · simp at h
      · rename_i hvc
        split at h
        · simp at h
        · rename_i db1 material lg happly
          simp only [apply_movement] at happly
          split at happly
          · simp at happly
          · rename_i hneg
            rw [Except.ok.injEq] at happly
            simp only [Prod.mk.injEq] at happly
            obtain ⟨hdb1, hmaterial, -⟩ := happly
            subst hdb1
            subst hmaterial
            split at h
            · rename_i level hlevel
              rw [Except.ok.injEq, Prod.mk.injEq] at h
              obtain ⟨hs', hmat⟩ := h
              subst hmat
              refine ⟨m, heq, not_le.mp hle, Bool.not_eq_true _ ▸ hvc, not_lt.mp hneg,
                rfl, ?_, ?_, ?_, ?_⟩
              · rw [← hs']
                simp [push_alert]
              · rw [← hs']
                simp [push_alert]
              · rw [← hs']
                simp [push_alert]
              · left
                exact ⟨level, hlevel, by rw [← hs']; simp [push_alert],
                  by rw [← hs']; simp [push_alert]⟩
            · rename_i hlevel
              rw [Except.ok.injEq, Prod.mk.injEq] at h
              obtain ⟨hs', hmat⟩ := h
              subst hmat
              refine ⟨m, heq, not_le.mp hle, Bool.not_eq_true _ ▸ hvc, not_lt.mp hneg,
                rfl, ?_, ?_, ?_, ?_⟩
              · rw [← hs']
              · rw [← hs']
              · rw [← hs']
              · right
                exact ⟨hlevel, by rw [← hs'], by rw [← hs']⟩

lemma replenish_ok {s : ServerState} {mid : Nat} {p : Movement} {s' : ServerState} {mat : Material}
    (h : replenish s mid p = .ok (s', mat)) :
    ∃ m, findMaterial s.db mid = some m ∧
      0 < p.amount_m ∧
      versionCheckFails p.expected_version m.version = false ∧
      0 ≤ m.current_m + p.amount_m ∧
      mat = { m with current_m := m.current_m + p.amount_m, version := m.version + 1 } ∧
      s'.db.materials = setMaterial s.db.materials mat ∧
      s'.db.logs = s.db.logs ++ [{ material_id := m.id, change_m := p.amount_m, reason := p.reason }] ∧
      s'.db.next_id = s.db.next_id ∧
      s'.db.alerts = s.db.alerts ∧ s'.hub = s.hub := by
  unfold replenish at h
  split at h
  · simp at h
  · rename_i hle
    split at h
    · simp at h
    · rename_i m heq
      split at h
      · simp at h
      · rename_i hvc
        split at h
        · simp at h
        · rename_i db1 material lg happly
          simp only [apply_movement] at happly
          split at happly
          · simp at happly
          · rename_i hneg
            rw [Except.ok.injEq] at happly
            simp only [Prod.mk.injEq] at happly
            obtain ⟨hdb1, hmaterial, -⟩ := happly
            subst hdb1
            subst hmaterial
            rw [Except.ok.injEq, Prod.mk.injEq] at h
            obtain ⟨hs', hmat⟩ := h
            subst hmat
            refine ⟨m, heq, not_le.mp hle, Bool.not_eq_true _ ▸ hvc, not_lt.mp hneg,
              rfl, ?_, ?_, ?_, ?_, ?_⟩
            · rw [← hs']
            · rw [← hs']
            · rw [← hs']
            · rw [← hs']
            · rw [← hs']

lemma stepOp_error {s : ServerState} {mid : Nat} {op : MovOp} {e : ApiError}
    (h : applyOp s mid op = .error e) : stepOp s mid op = s := by
  unfold stepOp
  rw [h]

lemma consume_versionConflict {s : ServerState} {mid : Nat} {p : Movement} {m : Material} {e : Nat}
    (hfind : findMaterial s.db mid = some m) (hpos : 0 < p.amount_m)
    (hev : p.expected_version = some e) (he0 : e ≠ 0) (hne : e ≠ m.version) :
    consume s mid p = .error (.versionConflict m.version) := by
  have hvc : versionCheckFails p.expected_version m.version = true := by
    simp [versionCheckFails, hev, he0, hne]
  simp [consume, hfind, hvc, not_le.mpr hpos]

lemma replenish_versionConflict {s : ServerState} {mid : Nat} {p : Movement} {m : Material} {e : Nat}
    (hfind : findMaterial s.db mid = some m) (hpos : 0 < p.amount_m)
    (hev : p.expected_version = some e) (he0 : e ≠ 0) (hne : e ≠ m.version) :
    replenish s mid p = .error (.versionConflict m.version) := by
  have hvc : versionCheckFails p.expected_version m.version = true := by
    simp [versionCheckFails, hev, he0, hne]
  simp [replenish, hfind, hvc, not_le.mpr hpos]

lemma consume_insufficient {s : ServerState} {mid : Nat} {p : Movement} {m : Material}
    (hfind : findMaterial s.db mid = some m) (hpos : 0 < p.amount_m)
    (hvc : versionCheckFails p.expected_version m.version = false)
    (hneg : m.current_m + -p.amount_m < 0) :
    consume s mid p = .error .insufficientStock := by
  simp [consume, apply_movement, hfind, hvc, not_le.mpr hpos, hneg]

lemma replenish_no_insufficient {s : ServerState} {mid : Nat} {p : Movement} {m : Material}
    (hfind : findMaterial s.db mid = some m) (h0 : 0 ≤ m.current_m) (hpos : 0 < p.amount_m) :
    replenish s mid p ≠ .error .insufficientStock := by
  have hnn : ¬ m.current_m + p.amount_m < 0 := by
    intro hc
    nlinarith
  by_cases hvc : versionCheckFails p.expected_version m.version = true
  · simp [replenish, hfind, hvc, not_le.mpr hpos]
  · simp only [Bool.not_eq_true] at hvc
    simp [replenish, apply_movement, hfind, hvc, not_le.mpr hpos, hnn]

lemma consume_none_no_conflict {s : ServerState} {mid : Nat} {p : Movement} {m : Material} {v : Nat}
    (hfind : findMaterial s.db mid = some m) (hev : p.expected_version = none) :
    consume s mid p ≠ .error (.versionConflict v) := by
  intro hcon
  have hvc : versionCheckFails p.expected_version m.version = false := by
    simp [versionCheckFails, hev]
  simp only [consume, hfind, hvc, Bool.false_eq_true, if_false] at hcon
  split at hcon
  · simp at hcon
  · split at hcon
    · rename_i e heq
      simp only [apply_movement] at heq
      split at heq
      · rw [Except.error.injEq] at heq
        rw [← heq] at hcon
        simp at hcon
      · simp at heq
    · rename_i r heq
      split at hcon
      · simp at hcon
      · simp at hcon

lemma replenish_none_no_conflict {s : ServerState} {mid : Nat} {p : Movement} {m : Material} {v : Nat}
    (hfind : findMaterial s.db mid = some m) (hev : p.expected_version = none) :
    replenish s mid p ≠ .error (.versionConflict v) := by
  intro hcon
  have hvc : versionCheckFails p.expected_version m.version = false := by
    simp [versionCheckFails, hev]
  simp only [replenish, hfind, hvc, Bool.false_eq_true, if_false] at hcon
  split at hcon
  · simp at hcon
  · split at hcon
    · rename_i e heq
      simp only [apply_movement] at heq
      split at heq
      · rw [Except.error.injEq] at heq
        rw [← heq] at hcon
        simp at hcon
      · simp at heq
    · simp at hcon

/-! ### Claim C5: the optimistic-lock protocol -/

/-- C5: for both consume and replenish, a supplied truthy expected_version
differing from the stored version fails with VersionConflict reporting the
stored version, while expected_version zero behaves exactly like an absent
one, and an absent expected_version can never produce a VersionConflict. -/
theorem C5_optimistic_lock (s : ServerState) (mid : Nat) (p : Movement) (m : Material)
    (hfind : findMaterial s.db mid = some m) (hpos : 0 < p.amount_m) :
    (∀ e, p.expected_version = some e → e ≠ 0 → e ≠ m.version →
      consume s mid p = .error (.versionConflict m.version) ∧
      replenish s mid p = .error (.versionConflict m.version)) ∧
    (consume s mid { p with expected_version := some 0 } =
      consume s mid { p with expected_version := none }) ∧
    (replenish s mid { p with expected_version := some 0 } =
      replenish s mid { p with expected_version := none }) ∧
    (∀ v, p.expected_version = none → consume s mid p ≠ .error (.versionConflict v)) ∧
    (∀ v, p.expected_version = none → replenish s mid p ≠ .error (.versionConflict v)) := by
  refine ⟨?_, ?_, ?_, ?_, ?_⟩
  · intro e hev he0 hne
    exact ⟨consume_versionConflict hfind hpos hev he0 hne,
      replenish_versionConflict hfind hpos hev he0 hne⟩
  · simp [consume, versionCheckFails]
  · simp [replenish, versionCheckFails]
  · intro v hev
    exact consume_none_no_conflict hfind hev
  · intro v hev
    exact replenish_none_no_conflict hfind hev

/-- The scenario material of §8 of the spec: stock 10, threshold 5, version 1. -/
def exMat : Material :=
  { id := 1, code := "FAB-001", name := "Canvas", current_m := 10, min_threshold_m := some 5,
    reorder_qty_m := 20, unit := "m", is_active := true, version := 1 }

/-- A server state holding exactly the scenario material and no listeners. -/
def exState : ServerState :=
  { db := { materials := [exMat], logs := [], alerts := [], next_id := 2 }, hub := [] }

/-- Witness for C5 at the scenario state with expected_version 3 ≠ 1. -/
theorem C5_witness :
    findMaterial exState.db 1 = some exMat ∧ (0:ℚ) < 6 ∧
    consume exState 1 { amount_m := 6, reason := none, expected_version := some 3 } =
      .error (.versionConflict exMat.version) := by
  have hfind : findMaterial exState.db 1 = some exMat := by rfl
  have hpos : (0:ℚ) < (6:ℚ) := by norm_num
  refine ⟨hfind, hpos, ?_⟩
  exact ((C5_optimistic_lock exState 1
    { amount_m := 6, reason := none, expected_version := some 3 } exMat hfind hpos).1
      3 rfl (by norm_num) (by norm_num [exMat])).1

/-! ### Claim C6: movement and audit log commit together -/

/-- C6: a successful movement changes the stock and appends exactly one log
entry carrying the signed delta (negative for consume, positive for
replenish) and the reason, in the same commit; a failed movement leaves the
whole state untouched, so the stock is never changed without its log entry
nor a log entry written without the stock change. -/
theorem C6_atomic_movement_log (s : ServerState) (mid : Nat) (p : Movement) (m : Material)
    (hfind : findMaterial s.db mid = some m) :
    (∀ s' mat, consume s mid p = .ok (s', mat) →
      s'.db.logs = s.db.logs ++ [{ material_id := m.id, change_m := -p.amount_m, reason := p.reason }] ∧
      mat.current_m = m.current_m + -p.amount_m ∧
      s'.db.materials = setMaterial s.db.materials mat) ∧
    (∀ s' mat, replenish s mid p = .ok (s', mat) →
      s'.db.logs = s.db.logs ++ [{ material_id := m.id, change_m := p.amount_m, reason := p.reason }] ∧
      mat.current_m = m.current_m + p.amount_m ∧
      s'.db.materials = setMaterial s.db.materials mat) ∧
    (∀ op e, applyOp s mid op = .error e → stepOp s mid op = s) := by
  refine ⟨?_, ?_, ?_⟩
  · intro s' mat h
    obtain ⟨m2, hfind2, -, -, -, hmat, hmats, hlogs, -, -⟩ := consume_ok h
    rw [hfind] at hfind2
    cases hfind2
    exact ⟨hlogs, by rw [hmat], hmats⟩
  · intro s' mat h
    obtain ⟨m2, hfind2, -, -, -, hmat, hmats, hlogs, -, -⟩ := replenish_ok h
    rw [hfind] at hfind2
    cases hfind2
    exact ⟨hlogs, by rw [hmat], hmats⟩
  · intro op e h
    exact stepOp_error h

/-- Witness for C6: consuming 6 from the scenario material appends exactly
the log entry with delta -6. -/
theorem C6_witness :
    findMaterial exState.db 1 = some exMat ∧
    (∀ s' mat, consume exState 1 { amount_m := 6, reason := some "job", expected_version := none } =
        .ok (s', mat) →
      s'.db.logs = exState.db.logs ++
        [{ material_id := exMat.id, change_m := -(6:ℚ), reason := some "job" }] ∧
      mat.current_m = exMat.current_m + -(6:ℚ) ∧
      s'.db.materials = setMaterial exState.db.materials mat) := by
  have hfind : findMaterial exState.db 1 = some exMat := by rfl
  exact ⟨hfind, (C6_atomic_movement_log exState 1
    { amount_m := 6, reason := some "job", expected_version := none } exMat hfind).1⟩

/-! ### Claim C2: the ledger invariant over movement sequences -/

lemma applyOp_ok {s : ServerState} {mid : Nat} {op : MovOp} {s' : ServerState} {mat : Material}
    (h : applyOp s mid op = .ok (s', mat)) :
    ∃ m, findMaterial s.db mid = some m ∧
      mat.current_m = m.current_m + op.delta ∧
      mat.version = m.version + 1 ∧
      mat.id = m.id ∧
      mat.min_threshold_m = m.min_threshold_m ∧
      0 ≤ mat.current_m ∧
      findMaterial s'.db mid = some mat := by
  cases op with
  | consumeOp pp =>
    obtain ⟨m, hfind, -, -, hnn, hmat, hmats, -, -, -⟩ := consume_ok h
    have hid : m.id = mid := findMaterial_id hfind
    refine ⟨m, hfind, by rw [hmat]; rfl, by rw [hmat], by rw [hmat], by rw [hmat],
      by rw [hmat]; exact hnn, ?_⟩
    unfold findMaterial
    rw [hmats]
    exact find?_setMaterial (by rw [hmat]) hfind
  | replenishOp pp =>
    obtain ⟨m, hfind, -, -, hnn, hmat, hmats, -, -, -, -⟩ := replenish_ok h
    have hid : m.id = mid := findMaterial_id hfind
    refine ⟨m, hfind, by rw [hmat]; rfl, by rw [hmat], by rw [hmat], by rw [hmat],
      by rw [hmat]; exact hnn, ?_⟩
    unfold findMaterial
    rw [hmats]
    exact find?_setMaterial (by rw [hmat]) hfind

lemma runOps_ledger (mid : Nat) (ops : List MovOp) :
    ∀ s m, findMaterial s.db mid = some m →
    ∃ mF, findMaterial (runOps s mid ops).db mid = some mF ∧
      mF.current_m = m.current_m + (appliedDeltas s mid ops).sum ∧
      (0 ≤ m.current_m → 0 ≤ mF.current_m) := by
  induction ops with
  | nil =>
    intro s m hfind
    exact ⟨m, hfind, by simp [runOps, appliedDeltas], fun h => h⟩
  | cons op rest ih =>
    intro s m hfind
    cases happ : applyOp s mid op with
    | error e =>
      have hst : stepOp s mid op = s := stepOp_error happ
      have hrun : runOps s mid (op :: rest) = runOps s mid rest := by
        simp only [runOps, hst]
      have hd : appliedDeltas s mid (op :: rest) = appliedDeltas s mid rest := by
        simp only [appliedDeltas, happ]
      rw [hrun, hd]
      exact ih s m hfind
    | ok r =>
      obtain ⟨s1, mat⟩ := r
      obtain ⟨m', hfind', hcur, -, -, -, hnn, hfind1⟩ := applyOp_ok happ
      rw [hfind] at hfind'
      cases hfind'
      have hst : stepOp s mid op = s1 := by
        unfold stepOp
        rw [happ]
      have hrun : runOps s mid (op :: rest) = runOps s1 mid rest := by
        simp only [runOps, hst]
      have hd : appliedDeltas s mid (op :: rest) = op.delta :: appliedDeltas s1 mid rest := by
        simp only [appliedDeltas, happ]
      obtain ⟨mF, h1, h2, h3⟩ := ih s1 mat hfind1
      refine ⟨mF, by rw [hrun]; exact h1, ?_, fun _ => h3 hnn⟩
      rw [hd, List.sum_cons, h2, hcur]
      ring

/-- C2: over any sequence of consume/replenish requests against one
material, the stock read back after the run equals the initial stock plus
the sum of the signed deltas of exactly the accepted movements, and (the
initial stock being non-negative) it never goes negative; a consume whose
delta would drive the stock negative fails with InsufficientStock and a
failed request leaves the state unchanged; a replenish of a positive amount
on non-negative stock can never fail with InsufficientStock. -/
theorem C2_ledger_invariant (s : ServerState) (mid : Nat) (ops : List MovOp) (m : Material)
    (hfind : findMaterial s.db mid = some m) (h0 : 0 ≤ m.current_m) :
    (∃ mF, findMaterial (runOps s mid ops).db mid = some mF ∧
      mF.current_m = m.current_m + (appliedDeltas s mid ops).sum ∧
      0 ≤ mF.current_m) ∧
    (∀ p : Movement, 0 < p.amount_m →
      versionCheckFails p.expected_version m.version = false →
      m.current_m + -p.amount_m < 0 →
      consume s mid p = .error .insufficientStock) ∧
    (∀ op e, applyOp s mid op = .error e → stepOp s mid op = s) ∧
    (∀ p : Movement, 0 < p.amount_m → replenish s mid p ≠ .error .insufficientStock) := by
  refine ⟨?_, ?_, ?_, ?_⟩
  · obtain ⟨mF, h1, h2, h3⟩ := runOps_ledger mid ops s m hfind
    exact ⟨mF, h1, h2, h3 h0⟩
  · intro p hpos hvc hneg
    exact consume_insufficient hfind hpos hvc hneg
  · intro op e h
    exact stepOp_error h
  · intro p hpos
    exact replenish_no_insufficient hfind h0 hpos

/-- Witness for C2 at the scenario state with the sequence
[consume 6, consume 100 (rejected), replenish 2]. -/
theorem C2_witness :
    findMaterial exState.db 1 = some exMat ∧ (0:ℚ) ≤ exMat.current_m ∧
    (∃ mF, findMaterial (runOps exState 1
        [.consumeOp { amount_m := 6, reason := none, expected_version := none },
         .consumeOp { amount_m := 100, reason := none, expected_version := none },
         .replenishOp { amount_m := 2, reason := none, expected_version := none }]).db 1 = some mF ∧
      mF.current_m = exMat.current_m + (appliedDeltas exState 1
        [.consumeOp { amount_m := 6, reason := none, expected_version := none },
         .consumeOp { amount_m := 100, reason := none, expected_version := none },
         .replenishOp { amount_m := 2, reason := none, expected_version := none }]).sum ∧
      0 ≤ mF.current_m) := by
  have hfind : findMaterial exState.db 1 = some exMat := by rfl
  have h0 : (0:ℚ) ≤ exMat.current_m := by norm_num [exMat]
  exact ⟨hfind, h0, (C2_ledger_invariant exState 1 _ exMat hfind h0).1⟩

/-! ### Claim C3: version counting -/

lemma create_ok {db : DB} {p : MaterialCreate} {r : DB × Material}
    (h : create_material db p = .ok r) :
    r.2.version = 1 ∧ r.2.min_threshold_m = some p.min_threshold_m ∧
    r.2.current_m = p.current_m ∧ r.2.id = db.next_id ∧
    r.1.materials = db.materials ++ [r.2] ∧ r.1.logs = db.logs ∧
    r.1.alerts = db.alerts ∧ r.1.next_id = db.next_id + 1 ∧
    db.materials.any (fun m => m.code == p.code) = false := by
  unfold create_material at h
  split at h
  · simp at h
  · rename_i hdup
    simp only [Except.ok.injEq] at h
    subst h
    refine ⟨rfl, rfl, rfl, rfl, rfl, rfl, rfl, rfl, ?_⟩
    simpa using hdup

lemma update_ok {db : DB} {mid : Nat} {p : MaterialUpdate} {r : DB × Material}
    (h : update_material db mid p = .ok r) :
    ∃ m, findMaterial db mid = some m ∧
      r.2.version = m.version + 1 ∧
      r.2.id = m.id ∧
      r.2.current_m = m.current_m ∧
      (p.min_threshold_m = none → r.2.min_threshold_m = m.min_threshold_m) ∧
      (∀ v, p.min_threshold_m = some v → r.2.min_threshold_m = some v) ∧
      r.1.materials = setMaterial db.materials r.2 ∧
      r.1.logs = db.logs ∧ r.1.alerts = db.alerts ∧ r.1.next_id = db.next_id := by
  unfold update_material at h
  split at h
  · simp at h
  · rename_i m heq
    simp only [Except.ok.injEq] at h
    subst h
    refine ⟨m, heq, ?_⟩
    obtain ⟨pn, pt, pr2, pa⟩ := p
    cases pn <;> cases pt <;> cases pr2 <;> cases pa <;>
      exact ⟨rfl, rfl, rfl, (by intro hh; first | rfl | cases hh),
        (by intro v hv; first | (cases hv; rfl) | cases hv), rfl, rfl, rfl, rfl⟩

lemma update_notFound {db : DB} {mid : Nat} {p : MaterialUpdate} :
    update_material db mid p = .error .notFound ↔ findMaterial db mid = none := by
  unfold update_material
  cases hfind : findMaterial db mid with
  | none => simp
  | some m => simp

/-- C3: version is 1 at creation and goes up by exactly 1 on every accepted
mutation — a PATCH (even one whose supplied values equal the stored ones)
or a movement — while every rejected operation leaves the state, and hence
the stored version, unchanged. -/
theorem C3_version_increments :
    (∀ db p r, create_material db p = .ok r → r.2.version = 1) ∧
    (∀ db mid p r m0, findMaterial db mid = some m0 → update_material db mid p = .ok r →
      r.2.version = m0.version + 1 ∧ findMaterial r.1 mid = some r.2) ∧
    (∀ db mid m0, findMaterial db mid = some m0 →
      ∃ r, update_material db mid
          { name := some m0.name, min_threshold_m := m0.min_threshold_m,
            reorder_qty_m := some m0.reorder_qty_m, is_active := some m0.is_active } = .ok r ∧
        r.2.version = m0.version + 1) ∧
    (∀ s mid op s' mat m0, findMaterial s.db mid = some m0 → applyOp s mid op = .ok (s', mat) →
      mat.version = m0.version + 1 ∧ findMaterial s'.db mid = some mat) ∧
    (∀ s mid op e, applyOp s mid op = .error e → stepOp s mid op = s) ∧
    (∀ db mid p, update_material db mid p = .error .notFound ↔ findMaterial db mid = none) := by
  refine ⟨?_, ?_, ?_, ?_, ?_, ?_⟩
  · intro db p r h
    exact (create_ok h).1
  · intro db mid p r m0 hfind h
    obtain ⟨m, heq, hver, hid, -, -, -, hmats, -, -⟩ := update_ok h
    rw [hfind] at heq
    cases heq
    refine ⟨hver, ?_⟩
    unfold findMaterial
    rw [hmats]
    exact find?_setMaterial hid hfind
  · intro db mid m0 hfind
    cases hru : update_material db mid
        { name := some m0.name, min_threshold_m := m0.min_threshold_m,
          reorder_qty_m := some m0.reorder_qty_m, is_active := some m0.is_active } with
    | error e =>
      exfalso
      unfold update_material at hru
      rw [hfind] at hru
      simp at hru
    | ok r =>
      obtain ⟨m, heq, hver, -⟩ := update_ok hru
      rw [hfind] at heq
      cases heq
      exact ⟨r, rfl, hver⟩
  · intro s mid op s' mat m0 hfind h
    obtain ⟨m, heq, -, hver, -, -, -, hfind'⟩ := applyOp_ok h
    rw [hfind] at heq
    cases heq
    exact ⟨hver, hfind'⟩
  · intro s mid op e h
    exact stepOp_error h
  · intro db mid p
    exact update_notFound

/-! ### Claim C1: post-movement alerting is consume-only -/

/-- C1 (amended): after every successful consume the evaluator runs on the
post-movement state — an alert is persisted and pushed exactly when it
classifies the state as alert-worthy — but replenish performs no threshold
evaluation: a successful replenish never persists an alert nor touches the
listener set. -/
theorem C1_alert_on_consume_only (s : ServerState) (mid : Nat) (p : Movement) :
    (∀ s' mat, consume s mid p = .ok (s', mat) →
      (∀ level, evaluate_threshold mat = some level →
        s'.db.alerts = s.db.alerts ++ [mkAlert mat level] ∧ s'.hub = (broadcast s.hub).1) ∧
      (evaluate_threshold mat = none →
        s'.db.alerts = s.db.alerts ∧ s'.hub = s.hub)) ∧
    (∀ s' mat, replenish s mid p = .ok (s', mat) →
      s'.db.alerts = s.db.alerts ∧ s'.hub = s.hub) := by
  constructor
  · intro s' mat h
    obtain ⟨m, -, -, -, -, -, -, -, -, halt⟩ := consume_ok h
    constructor
    · intro level hlevel
      rcases halt with ⟨l2, hl2, ha, hh⟩ | ⟨hnone, -, -⟩
      · rw [hlevel] at hl2
        cases hl2
        exact ⟨ha, hh⟩
      · rw [hnone] at hlevel
        cases hlevel
    · intro hnone
      rcases halt with ⟨l2, hl2, -, -⟩ | ⟨-, ha, hh⟩
      · rw [hnone] at hl2
        cases hl2
      · exact ⟨ha, hh⟩
  · intro s' mat h
    obtain ⟨m, -, -, -, -, -, -, -, -, ha, hh⟩ := replenish_ok h
    exact ⟨ha, hh⟩

/-- A material already under threshold: stock 0, threshold 5. -/
def lowMat : Material :=
  { id := 1, code := "FAB-001", name := "Canvas", current_m := 0, min_threshold_m := some 5,
    reorder_qty_m := 20, unit := "m", is_active := true, version := 1 }

/-- A server state holding only lowMat, with one connected listener. -/
def lowState : ServerState :=
  { db := { materials := [lowMat], logs := [], alerts := [], next_id := 2 },
    hub := [{ token := 7, sendOk := true }] }

/-- lowMat after replenishing 3: still under the threshold of 5. -/
def lowMatAfter : Material :=
  { id := 1, code := "FAB-001", name := "Canvas", current_m := 3, min_threshold_m := some 5,
    reorder_qty_m := 20, unit := "m", is_active := true, version := 2 }

/-- Counterexample to C1 as stated: replenishing 3 onto stock 0 with
threshold 5 succeeds and leaves a state the evaluator classifies as LOW,
yet no alert is persisted and nothing is pushed to the connected
listener — the replenish route never invokes the evaluator. -/
theorem C1_counterexample :
    replenish lowState 1 { amount_m := 3, reason := none, expected_version := none } =
      .ok ({ db := { materials := [lowMatAfter],
                     logs := [{ material_id := 1, change_m := 3, reason := none }],
                     alerts := [], next_id := 2 },
             hub := [{ token := 7, sendOk := true }] }, lowMatAfter) ∧
    evaluate_threshold lowMatAfter = some "LOW" ∧
    lowState.db.alerts = [] := by
  refine ⟨?_, ?_, rfl⟩
  · norm_num [replenish, apply_movement, findMaterial, versionCheckFails, setMaterial,
      List.find?, lowState, lowMat, lowMatAfter]
  · norm_num [evaluate_threshold, lowMatAfter]

/-- lowMat after consuming 6 from the scenario state exState: stock 4. -/
def exMatAfter : Material :=
  { id := 1, code := "FAB-001", name := "Canvas", current_m := 4, min_threshold_m := some 5,
    reorder_qty_m := 20, unit := "m", is_active := true, version := 2 }

/-- The scenario state after consuming 6: the LOW alert is persisted. -/
def exStateAfter : ServerState :=
  { db := { materials := [exMatAfter],
            logs := [{ material_id := 1, change_m := -6, reason := none }],
            alerts := [mkAlert exMatAfter "LOW"], next_id := 2 },
    hub := [] }

/-- Witness for C1 (amended): consuming 6 from stock 10 with threshold 5
succeeds, is classified LOW, and the alert is persisted. -/
theorem C1_witness :
    consume exState 1 { amount_m := 6, reason := none, expected_version := none } =
      .ok (exStateAfter, exMatAfter) ∧
    evaluate_threshold exMatAfter = some "LOW" ∧
    exStateAfter.db.alerts = exState.db.alerts ++ [mkAlert exMatAfter "LOW"] := by
  have hcons : consume exState 1 { amount_m := 6, reason := none, expected_version := none } =
      .ok (exStateAfter, exMatAfter) := by
    norm_num [consume, apply_movement, findMaterial, versionCheckFails, setMaterial,
      evaluate_threshold, push_alert, broadcast, broadcastGo, List.find?,
      exState, exMat, exStateAfter, exMatAfter]
  have hlow : evaluate_threshold exMatAfter = some "LOW" := by
    norm_num [evaluate_threshold, exMatAfter]
  exact ⟨hcons, hlow,
    (((C1_alert_on_consume_only exState 1
      { amount_m := 6, reason := none, expected_version := none }).1
        exStateAfter exMatAfter hcons).1 "LOW" hlow).1⟩

/-! ### Claim C7: exact decimal stock arithmetic -/

/-- Embeds the get_material route (main.py lines 163-168): 404 when absent. -/
def get_material (db : DB) (material_id : Nat) : Except ApiError Material :=
  match findMaterial db material_id with
  | none => .error .notFound
  | some m => .ok m

lemma scaleUp_val (n : ℚ) (s e : Nat) (h : s ≤ e) :
    n * (10:ℚ) ^ (e - s) / (10:ℚ) ^ e = n / (10:ℚ) ^ s := by
  have he : (10:ℚ) ^ e = (10:ℚ) ^ s * (10:ℚ) ^ (e - s) := by
    rw [← pow_add, Nat.add_sub_cancel' h]
  rw [he, mul_comm ((10:ℚ) ^ s) _, ← div_div, mul_div_assoc, div_self (by positivity), mul_one]

lemma DecNum.add_val (a b : DecNum) : (a.add b).val = a.val + b.val := by
  unfold DecNum.add DecNum.val
  push_cast
  rw [add_div, scaleUp_val _ _ _ (Nat.le_max_left _ _), scaleUp_val _ _ _ (Nat.le_max_right _ _)]

lemma DecNum.neg_val (a : DecNum) : a.neg.val = -a.val := by
  unfold DecNum.neg DecNum.val
  push_cast
  ring

set_option maxRecDepth 8000

/-- C7: the stock fields use exact decimal arithmetic, never binary floating
point: decimal addition and negation are value-exact; the string "12.500"
parses to coefficient 12500 at scale 3 and prints back exactly as "12.500";
create_material stores the payload's decimal unchanged and get_material
reads it back; and 1000 consecutive consumptions of 0.001 starting from
1.000 land exactly on coefficient 0 at scale 3, printing as "0.000", whose
value is exactly 0. -/
theorem C7_decimal_exactness :
    (∀ a b : DecNum, (a.add b).val = a.val + b.val) ∧
    (∀ a : DecNum, a.neg.val = -a.val) ∧
    DecNum.ofString "12.500" = some { num := 12500, scale := 3 } ∧
    (DecNum.ofString "12.500").map DecNum.render = some "12.500" ∧
    (∀ db p r, create_material db p = .ok r →
      r.2.current_m = p.current_m ∧
      ((∀ m ∈ db.materials, m.id ≠ db.next_id) → get_material r.1 r.2.id = .ok r.2)) ∧
    DecNum.ofString "1.000" = some { num := 1000, scale := 3 } ∧
    DecNum.ofString "0.001" = some { num := 1, scale := 3 } ∧
    iterateConsume 1000 { num := 1000, scale := 3 } { num := 1, scale := 3 } =
      some { num := 0, scale := 3 } ∧
    (iterateConsume 1000 { num := 1000, scale := 3 } { num := 1, scale := 3 }).map
      DecNum.render = some "0.000" ∧
    DecNum.val { num := 0, scale := 3 } = 0 := by
  refine ⟨DecNum.add_val, DecNum.neg_val, by decide, by decide, ?_, by decide, by decide,
    by decide, by decide, by norm_num [DecNum.val]⟩
  intro db p r h
  obtain ⟨-, -, hcur, hid, hmats, -, -, -, -⟩ := create_ok h
  refine ⟨hcur, ?_⟩
  intro hfresh
  unfold get_material findMaterial
  rw [hmats, List.find?_append]
  have hnone : db.materials.find? (fun m => m.id == r.2.id) = none := by
    apply List.find?_eq_none.mpr
    intro x hx
    simp only [beq_eq_false_iff_ne, ne_eq, Bool.not_eq_true]
    rw [hid]
    simpa using hfresh x hx
  rw [hnone]
  simp

/-- Witness for C7's create/read-back clause at the scenario store. -/
theorem C7_witness :
    (∀ m ∈ exState.db.materials, m.id ≠ exState.db.next_id) ∧
    (∀ r, create_material exState.db
        { code := "FAB-002", name := "Linen", current_m := 25/2,
          min_threshold_m := 5, reorder_qty_m := 0 } = .ok r →
      r.2.current_m = 25/2 ∧ get_material r.1 r.2.id = .ok r.2) := by
  have hfresh : ∀ m ∈ exState.db.materials, m.id ≠ exState.db.next_id := by
    intro m hm
    have hme : m = exMat := by
      simpa [exState] using hm
    rw [hme]
    decide
  refine ⟨hfresh, ?_⟩
  intro r hr
  obtain ⟨hcur, hget⟩ := C7_decimal_exactness.2.2.2.2.1 exState.db _ r hr
  exact ⟨hcur, hget hfresh⟩

/-! ### Claim C8: the periodic sweep -/

lemma sweepGo_spec (ms : List Material) : ∀ s : ServerState,
    (sweepGo ms s).db.alerts =
      s.db.alerts ++ ms.filterMap (fun m => (evaluate_threshold m).map (mkAlert m)) ∧
    (sweepGo ms s).db.materials = s.db.materials ∧
    (sweepGo ms s).db.logs = s.db.logs ∧
    (sweepGo ms s).db.next_id = s.db.next_id := by
  induction ms with
  | nil =>
    intro s
    simp [sweepGo]
  | cons m rest ih =>
    intro s
    cases hev : evaluate_threshold m with
    | none =>
      simp only [sweepGo, hev]
      obtain ⟨h1, h2, h3, h4⟩ := ih s
      simp [List.filterMap_cons, hev, h1, h2, h3, h4]
    | some level =>
      simp only [sweepGo, hev]
      obtain ⟨h1, h2, h3, h4⟩ := ih (push_alert s m level)
      simp only [push_alert] at h1 h2 h3 h4
      simp [List.filterMap_cons, hev, h1, h2, h3, h4, push_alert]

/-- C8: one sweep tick lists exactly the active materials and appends, in
listing order, one alert for each of them that the evaluator classifies as
alert-worthy; every appended alert stems from an active alert-worthy
material (inactive materials are never alerted); the sweep changes no
material or log; and it performs no deduplication — a second tick on the
same stock appends the same batch again. -/
theorem C8_sweep_alerts (s : ServerState) :
    (check_all_thresholds_and_alert s).db.alerts =
      s.db.alerts ++ (s.db.materials.filter (fun m => m.is_active)).filterMap
        (fun m => (evaluate_threshold m).map (mkAlert m)) ∧
    (check_all_thresholds_and_alert s).db.materials = s.db.materials ∧
    (check_all_thresholds_and_alert s).db.logs = s.db.logs ∧
    (∀ a ∈ (s.db.materials.filter (fun m => m.is_active)).filterMap
        (fun m => (evaluate_threshold m).map (mkAlert m)),
      ∃ m level, m ∈ s.db.materials ∧ m.is_active = true ∧
        evaluate_threshold m = some level ∧ a = mkAlert m level) ∧
    (check_all_thresholds_and_alert (check_all_thresholds_and_alert s)).db.alerts =
      s.db.alerts ++ (s.db.materials.filter (fun m => m.is_active)).filterMap
        (fun m => (evaluate_threshold m).map (mkAlert m))
      ++ (s.db.materials.filter (fun m => m.is_active)).filterMap
        (fun m => (evaluate_threshold m).map (mkAlert m)) := by
  obtain ⟨h1, h2, h3, -⟩ := sweepGo_spec (s.db.materials.filter (fun m => m.is_active)) s
  refine ⟨h1, h2, h3, ?_, ?_⟩
  · intro a ha
    rw [List.mem_filterMap] at ha
    obtain ⟨m, hm, hsome⟩ := ha
    rw [List.mem_filter] at hm
    rw [Option.map_eq_some'] at hsome
    obtain ⟨level, hlevel, hmk⟩ := hsome
    exact ⟨m, level, hm.1, hm.2, hlevel, hmk.symm⟩
  · obtain ⟨g1, g2, g3, -⟩ := sweepGo_spec
      ((check_all_thresholds_and_alert s).db.materials.filter (fun m => m.is_active))
      (check_all_thresholds_and_alert s)
    unfold check_all_thresholds_and_alert at g1 ⊢
    rw [g1, h2, h1]

/-! ### Claim C9: best-effort alert delivery -/

lemma broadcastGo_sent (active : List Listener) :
    (broadcastGo active).1 = (active.filter (fun l => l.sendOk)).map (fun l => l.token) := by
  induction active with
  | nil => rfl
  | cons l rest ih =>
    cases hs : l.sendOk with
    | true => simp [broadcastGo, List.filter_cons, hs, ih]
    | false => simp [broadcastGo, List.filter_cons, hs, ih]

lemma broadcastGo_drop (active : List Listener) :
    (broadcastGo active).2 = (active.filter (fun l => !l.sendOk)).map (fun l => l.token) := by
  induction active with
  | nil => rfl
  | cons l rest ih =>
    cases hs : l.sendOk with
    | true => simp [broadcastGo, List.filter_cons, hs, ih]
    | false => simp [broadcastGo, List.filter_cons, hs, ih]

lemma foldl_disconnect (ts : List Nat) : ∀ active : List Listener,
    ts.foldl disconnectTok active = active.filter (fun l => decide (l.token ∉ ts)) := by
  induction ts with
  | nil =>
    intro active
    simp [List.filter_true]
  | cons t ts ih =>
    intro active
    rw [List.foldl_cons, ih]
    unfold disconnectTok
    rw [List.filter_filter]
    apply List.filter_congr
    intro x hx
    simp [List.mem_cons, not_or, Bool.and_comm]

lemma broadcast_spec (active : List Listener)
    (hnodup : (active.map Listener.token).Nodup) :
    (broadcast active).1 = active.filter (fun l => l.sendOk) ∧
    (broadcast active).2 = (active.filter (fun l => l.sendOk)).map (fun l => l.token) := by
  constructor
  · show (broadcastGo active).2.foldl disconnectTok active = _
    rw [broadcastGo_drop, foldl_disconnect]
    apply List.filter_congr
    intro x hx
    cases hs : x.sendOk with
    | false =>
      have hmem : x.token ∈ (active.filter (fun l => !l.sendOk)).map (fun l => l.token) := by
        apply List.mem_map_of_mem
        rw [List.mem_filter]
        exact ⟨hx, by rw [hs]; rfl⟩
      simp [hmem]
    | true =>
      have hnot : x.token ∉ (active.filter (fun l => !l.sendOk)).map (fun l => l.token) := by
        intro hmem
        rw [List.mem_map] at hmem
        obtain ⟨y, hy, hty⟩ := hmem
        rw [List.mem_filter] at hy
        have hxy : y = x := List.inj_on_of_nodup_map hnodup hy.1 hx hty
        rw [hxy] at hy
        rw [hs] at hy
        simpa using hy.2
      simp [hnot]
  · show (broadcastGo active).1 = _
    exact broadcastGo_sent active

/-- C9: broadcast is best-effort — the delivery attempt reaches every
listener whose channel works, regardless of failures among the others
(delivered tokens are exactly those of the working listeners, in order);
every listener whose send fails, and only those, is removed from the active
set after the broadcast; and the persisted Alert row of push_alert does not
depend on the listener set at all. -/
theorem C9_best_effort_delivery (active : List Listener)
    (hnodup : (active.map Listener.token).Nodup) :
    (broadcast active).2 = (active.filter (fun l => l.sendOk)).map (fun l => l.token) ∧
    (broadcast active).1 = active.filter (fun l => l.sendOk) ∧
    (∀ l ∈ active, l.sendOk = false → l ∉ (broadcast active).1) ∧
    (∀ (db : DB) (hub1 hub2 : List Listener) (material : Material) (level : String),
      (push_alert { db := db, hub := hub1 } material level).db =
        (push_alert { db := db, hub := hub2 } material level).db ∧
      (push_alert { db := db, hub := hub1 } material level).db.alerts =
        db.alerts ++ [mkAlert material level]) := by
  obtain ⟨hact, hsent⟩ := broadcast_spec active hnodup
  refine ⟨hsent, hact, ?_, ?_⟩
  · intro l hl hfail hmem
    rw [hact, List.mem_filter] at hmem
    rw [hfail] at hmem
    simpa using hmem.2
  · intro db hub1 hub2 material level
    exact ⟨rfl, rfl⟩

/-- Witness for C9 with three listeners, the middle one failing. -/
theorem C9_witness :
    (([{ token := 1, sendOk := true }, { token := 2, sendOk := false },
        { token := 3, sendOk := true }] : List Listener).map Listener.token).Nodup ∧
    (broadcast [{ token := 1, sendOk := true }, { token := 2, sendOk := false },
        { token := 3, sendOk := true }]).2 = [1, 3] ∧
    (broadcast [{ token := 1, sendOk := true }, { token := 2, sendOk := false },
        { token := 3, sendOk := true }]).1 =
      [{ token := 1, sendOk := true }, { token := 3, sendOk := true }] := by
  have hnodup : (([{ token := 1, sendOk := true }, { token := 2, sendOk := false },
      { token := 3, sendOk := true }] : List Listener).map Listener.token).Nodup := by
    decide
  obtain ⟨hsent, hact, -, -⟩ := C9_best_effort_delivery
    [{ token := 1, sendOk := true }, { token := 2, sendOk := false },
      { token := 3, sendOk := true }] hnodup
  refine ⟨hnodup, ?_, ?_⟩
  · rw [hsent]
    decide
  · rw [hact]
    decide

/-! ### Claim C10: min_threshold_m is never unset in practice -/

/-- Every stored material has its threshold set. -/
def thresholdsSet (db : DB) : Prop :=
  ∀ m ∈ db.materials, (m.min_threshold_m).isSome = true

/-- C10: creation always stores a concrete (defaulting to 0) threshold and
no operation can unset it, so the evaluator's unset branch is unreachable
for stored materials — for a material with a set threshold, None is
returned exactly when the stock strictly exceeds the threshold — and the
creation defaults (stock 0, threshold 0) evaluate to CRITICAL: threshold 0
acts as an active threshold. -/
theorem C10_threshold_always_set :
    (∀ db p r, create_material db p = .ok r → r.2.min_threshold_m = some p.min_threshold_m) ∧
    (∀ db p r, thresholdsSet db → create_material db p = .ok r → thresholdsSet r.1) ∧
    (∀ db mid p r, thresholdsSet db → update_material db mid p = .ok r → thresholdsSet r.1) ∧
    (∀ s mid op, thresholdsSet s.db → thresholdsSet (stepOp s mid op).db) ∧
    (∀ m t, m.min_threshold_m = some t → (evaluate_threshold m = none ↔ t < m.current_m)) ∧
    (∀ db r code name, create_material db (MaterialCreate.withDefaults code name) = .ok r →
      evaluate_threshold r.2 = some "CRITICAL") := by
  refine ⟨?_, ?_, ?_, ?_, ?_, ?_⟩
  · intro db p r h
    exact (create_ok h).2.1
  · intro db p r hset h
    obtain ⟨-, hmin, -, -, hmats, -, -, -, -⟩ := create_ok h
    intro m hm
    rw [hmats, List.mem_append] at hm
    rcases hm with hm | hm
    · exact hset m hm
    · rw [List.mem_singleton] at hm
      rw [hm, hmin]
      rfl
  · intro db mid p r hset h
    obtain ⟨m0, hfind, -, -, -, hmin_none, hmin_some, hmats, -, -, -⟩ := update_ok h
    intro m hm
    rw [hmats] at hm
    rcases mem_setMaterial hm with hm | hm
    · rw [hm]
      cases hpt : p.min_threshold_m with
      | none =>
        rw [hmin_none hpt]
        exact hset m0 (findMaterial_mem hfind)
      | some v =>
        rw [hmin_some v hpt]
        rfl
    · exact hset m hm
  · intro s mid op hset
    cases happ : applyOp s mid op with
    | error e =>
      rw [stepOp_error happ]
      exact hset
    | ok r =>
      obtain ⟨s1, mat⟩ := r
      obtain ⟨m0, hfind, -, -, -, hmin, -, -⟩ := applyOp_ok happ
      have hst : stepOp s mid op = s1 := by
        unfold stepOp
        rw [happ]
      rw [hst]
      intro m hm
      have hmats : s1.db.materials = setMaterial s.db.materials mat := by
        cases op with
        | consumeOp pp =>
          obtain ⟨m2, hfind2, -, -, -, -, hmats2, -, -, -⟩ := consume_ok happ
          exact hmats2
        | replenishOp pp =>
          obtain ⟨m2, hfind2, -, -, -, -, hmats2, -, -, -, -⟩ := replenish_ok happ
          exact hmats2
      rw [hmats] at hm
      rcases mem_setMaterial hm with hm | hm
      · rw [hm, hmin]
        exact hset m0 (findMaterial_mem hfind)
      · exact hset m hm
  · intro m t hmt
    simp only [evaluate_threshold, hmt]
    by_cases h1 : m.current_m ≤ t
    · rw [if_pos h1]
      by_cases h2 : m.current_m ≤ 0
      · rw [if_pos h2]
        constructor
        · intro hc
          exact absurd hc (by simp)
        · intro hc
          exact absurd h1 (not_le.mpr hc)
      · rw [if_neg h2]
        constructor
        · intro hc
          exact absurd hc (by simp)
        · intro hc
          exact absurd h1 (not_le.mpr hc)
    · rw [if_neg h1]
      simp [not_le.mp h1]
  · intro db r code name h
    obtain ⟨-, hmin, hcur, -, -, -, -, -, -⟩ := create_ok h
    unfold evaluate_threshold
    rw [hmin, hcur]
    norm_num [MaterialCreate.withDefaults]

/-- The material row produced by creating with the payload defaults on an
empty store. -/
def defMat : Material :=
  { id := 1, code := "FAB-001", name := "Canvas", current_m := 0, min_threshold_m := some 0,
    reorder_qty_m := 0, unit := "m", is_active := true, version := 1 }

/-- An empty store. -/
def dbEmpty : DB :=
  { materials := [], logs := [], alerts := [], next_id := 1 }

/-- Witness for C10: creating with the payload defaults on an empty store
yields a material evaluating to CRITICAL. -/
theorem C10_witness :
    create_material dbEmpty (MaterialCreate.withDefaults "FAB-001" "Canvas") =
      .ok ({ materials := [defMat], logs := [], alerts := [], next_id := 2 }, defMat) ∧
    evaluate_threshold defMat = some "CRITICAL" := by
  have hcr : create_material dbEmpty (MaterialCreate.withDefaults "FAB-001" "Canvas") =
      .ok ({ materials := [defMat], logs := [], alerts := [], next_id := 2 }, defMat) := by
    simp [create_material, MaterialCreate.withDefaults, dbEmpty, defMat]
  exact ⟨hcr, C10_threshold_always_set.2.2.2.2.2 dbEmpty _ "FAB-001" "Canvas" hcr⟩

/-- Witness for C3: creating on an empty store yields version 1. -/
theorem C3_witness :
    create_material dbEmpty (MaterialCreate.withDefaults "FAB-001" "Canvas") =
      .ok ({ materials := [defMat], logs := [], alerts := [], next_id := 2 }, defMat) ∧
    defMat.version = 1 := by
  have hcr : create_material dbEmpty (MaterialCreate.withDefaults "FAB-001" "Canvas") =
      .ok ({ materials := [defMat], logs := [], alerts := [], next_id := 2 }, defMat) := by
    simp [create_material, MaterialCreate.withDefaults, dbEmpty, defMat]
  exact ⟨hcr, C3_version_increments.1 dbEmpty (MaterialCreate.withDefaults "FAB-001" "Canvas")
    ({ materials := [defMat], logs := [], alerts := [], next_id := 2 }, defMat) hcr⟩

/-- Witness for C8: one sweep tick over a single active CRITICAL material
appends exactly its alert. -/
theorem C8_witness :
    (check_all_thresholds_and_alert
      { db := { materials := [sampleMat 0 (some 5)], logs := [], alerts := [], next_id := 2 },
        hub := [] }).db.alerts = [mkAlert (sampleMat 0 (some 5)) "CRITICAL"] := by
  have h := (C8_sweep_alerts
    { db := { materials := [sampleMat 0 (some 5)], logs := [], alerts := [], next_id := 2 },
      hub := [] }).1
  rw [h]
  norm_num [List.filter, List.filterMap, evaluate_threshold, sampleMat]

end Warehouse
